import Mathlib

/-!
Verification of the DuckDB-over-HTTP DBAPI driver (`duckdb_http/__init__.py`):
the response-normalization engine inside `DuckDBHTTPDBAPI.Cursor.execute`
and the cursor fetch protocol (`fetchone` / `fetchmany` / `fetchall` / `close`).

The embedding models:
 - JSON values as parsed by Python's `json` module (`Json`),
 - the strict whole-document parse `resp.json()` / `json.loads` (`jsonLoads`),
 - the line-delimited fallback of `execute` (`lineFallback`, source lines 60-68),
 - the normalization of line payloads (`lineNormalize`, lines 70-82),
 - the whole-document dict paths: bare object and `columns`/`types`/`data`
   envelope (`wholeDictNormalize`, lines 85-109),
 - the cursor state and the fetch protocol (lines 33-40 and 112-136).

Machine-level caveats, noted where they occur: Python floats are kept as the
exact decimal `m * 10 ^ e` the literal denotes; a `\uXXXX` escape that is a
lone half of a surrogate pair becomes U+FFFD (Lean strings cannot hold lone
surrogates); Python values that the source can only ever iterate or take the
length of are represented by their iteration behavior.
-/

/-- A JSON value as produced by Python's `json.loads`.  Numbers are kept as
the exact decimal `m * 10 ^ e` denoted by the literal (`1` is `num 1 0`,
`1.5` is `num 15 (-1)`); Python distinguishes int from float literals, which
the `e` component records.  `nan` / `inf` model the `NaN` / `Infinity` /
`-Infinity` literals Python's parser accepts. -/
inductive Json where
  | null
  | bool (b : Bool)
  | num (m : Int) (e : Int)
  | nan
  | inf (neg : Bool)
  | str (s : String)
  | arr (elems : List Json)
  | obj (kvs : List (String × Json))

namespace Json

def isObj : Json → Bool
  | .obj _ => true
  | _ => false

def isScalar : Json → Bool
  | .arr _ => false
  | .obj _ => false
  | _ => true

end Json

/-- JSON whitespace (the only characters `json.loads` skips between tokens). -/
def isJsonWs (c : Char) : Bool :=
  (c == ' ') || (c == '\t') || (c == '\n') || (c == '\r')

def skipWs (s : List Char) : List Char := s.dropWhile isJsonWs

def isDigit (c : Char) : Bool := ('0' ≤ c) && (c ≤ '9')

def digVal (c : Char) : Nat := c.toNat - 48

def hexVal (c : Char) : Option Nat :=
  if isDigit c then some (digVal c)
  else if ('a' ≤ c) && (c ≤ 'f') then some (c.toNat - 87)
  else if ('A' ≤ c) && (c ≤ 'F') then some (c.toNat - 55)
  else none

def natOfDigits (ds : List Char) : Nat :=
  ds.foldl (fun a c => a * 10 + digVal c) 0

/-- Character pushed for a `\uXXXX` escape that denotes a lone surrogate
half.  Python keeps the lone surrogate inside its `str`; Lean strings can
only hold Unicode scalar values, so the replacement character stands in.
No property proved below involves surrogate escapes. -/
def loneSurrogate : Char := '�'

/-- String-literal body parser: consumes characters after the opening quote
up to and including the closing quote, decoding escapes the way Python's
strict `json.loads` does (raw control characters below 0x20 are rejected,
unknown escapes are rejected, `\uXXXX` pairs of surrogates are combined). -/
def pStrChars : Nat → List Char → List Char → Option (String × List Char)
  | 0, _, _ => none
  | _ + 1, _, [] => none
  | _ + 1, acc, '"' :: rest => some (String.mk acc.reverse, rest)
  | f + 1, acc, '\\' :: esc =>
    match esc with
    | '"' :: r => pStrChars f ('"' :: acc) r
    | '\\' :: r => pStrChars f ('\\' :: acc) r
    | '/' :: r => pStrChars f ('/' :: acc) r
    | 'b' :: r => pStrChars f ('\x08' :: acc) r
    | 'f' :: r => pStrChars f ('\x0c' :: acc) r
    | 'n' :: r => pStrChars f ('\n' :: acc) r
    | 'r' :: r => pStrChars f ('\r' :: acc) r
    | 't' :: r => pStrChars f ('\t' :: acc) r
    | 'u' :: a :: b :: c :: d :: r =>
      match hexVal a, hexVal b, hexVal c, hexVal d with
      | some ha, some hb, some hc, some hd =>
        let n := ((ha * 16 + hb) * 16 + hc) * 16 + hd
        if 0xD800 ≤ n ∧ n < 0xDC00 then
          match r with
          | '\\' :: 'u' :: a2 :: b2 :: c2 :: d2 :: r2 =>
            match hexVal a2, hexVal b2, hexVal c2, hexVal d2 with
            | some ha2, some hb2, some hc2, some hd2 =>
              let n2 := ((ha2 * 16 + hb2) * 16 + hc2) * 16 + hd2
              if 0xDC00 ≤ n2 ∧ n2 < 0xE000 then
                pStrChars f
                  (Char.ofNat (0x10000 + (n - 0xD800) * 0x400 + (n2 - 0xDC00)) :: acc) r2
              else
                pStrChars f (loneSurrogate :: acc) ('\\' :: 'u' :: a2 :: b2 :: c2 :: d2 :: r2)
            | _, _, _, _ => none
          | _ => pStrChars f (loneSurrogate :: acc) r
        else if 0xDC00 ≤ n ∧ n < 0xE000 then
          pStrChars f (loneSurrogate :: acc) r
        else
          pStrChars f (Char.ofNat n :: acc) r
      | _, _, _, _ => none
    | _ => none
  | f + 1, acc, c :: rest =>
    if c.toNat < 0x20 then none else pStrChars f (c :: acc) rest

def pString (s : List Char) : Option (String × List Char) :=
  pStrChars (s.length + 1) [] s

/-- JSON number parser (RFC 8259 grammar: optional minus, integer part with
no leading zeros, optional fraction, optional exponent), returning the exact
decimal as `Json.num m e` with value `m * 10 ^ e`. -/
def pNumber (s : List Char) : Option (Json × List Char) :=
  let signAndRest : Bool × List Char :=
    match s with
    | '-' :: r => (true, r)
    | _ => (false, s)
  let neg := signAndRest.1
  match signAndRest.2 with
  | c :: r =>
    if (c == '0') || isDigit c then
      let intDigits := if c == '0' then [c] else (c :: r).takeWhile isDigit
      let afterInt := if c == '0' then r else (c :: r).dropWhile isDigit
      let fracDigits :=
        match afterInt with
        | '.' :: fr => fr.takeWhile isDigit
        | _ => []
      let hasDot : Bool := match afterInt with
        | '.' :: _ => true
        | _ => false
      if hasDot && fracDigits.isEmpty then none
      else
        let afterFrac :=
          match afterInt with
          | '.' :: fr => fr.dropWhile isDigit
          | other => other
        let expPart : Option (Int × List Char) :=
          match afterFrac with
          | e :: er =>
            if (e == 'e') || (e == 'E') then
              let signedAndRest : Bool × List Char :=
                match er with
                | '+' :: er2 => (false, er2)
                | '-' :: er2 => (true, er2)
                | _ => (false, er)
              let eds := signedAndRest.2.takeWhile isDigit
              if eds.isEmpty then none
              else
                let ev : Int := Int.ofNat (natOfDigits eds)
                some ((if signedAndRest.1 then -ev else ev), signedAndRest.2.dropWhile isDigit)
            else some (0, afterFrac)
          | [] => some (0, afterFrac)
        match expPart with
        | none => none
        | some (ex, rest) =>
          let magnitude : Nat := natOfDigits intDigits * 10 ^ fracDigits.length + natOfDigits fracDigits
          let m : Int := if neg then -(Int.ofNat magnitude) else Int.ofNat magnitude
          some (Json.num m (ex - Int.ofNat fracDigits.length), rest)
    else none
  | [] => none

/-- Update an insertion-ordered association list the way a Python `dict`
does on key assignment: an existing key keeps its position and gets the new
value, a new key is appended. -/
def insertKV (kvs : List (String × Json)) (k : String) (v : Json) : List (String × Json) :=
  if kvs.any (fun kv => kv.1 == k) then
    kvs.map (fun kv => if kv.1 == k then (k, v) else kv)
  else kvs ++ [(k, v)]

mutual

/-- JSON value parser, fuel-indexed; mirrors Python's `json.loads` grammar
including the `NaN` / `Infinity` / `-Infinity` literals it accepts. -/
def pValue : Nat → List Char → Option (Json × List Char)
  | 0, _ => none
  | f + 1, s =>
    match skipWs s with
    | [] => none
    | 'n' :: 'u' :: 'l' :: 'l' :: r => some (Json.null, r)
    | 't' :: 'r' :: 'u' :: 'e' :: r => some (Json.bool true, r)
    | 'f' :: 'a' :: 'l' :: 's' :: 'e' :: r => some (Json.bool false, r)
    | 'N' :: 'a' :: 'N' :: r => some (Json.nan, r)
    | 'I' :: 'n' :: 'f' :: 'i' :: 'n' :: 'i' :: 't' :: 'y' :: r => some (Json.inf false, r)
    | '-' :: 'I' :: 'n' :: 'f' :: 'i' :: 'n' :: 'i' :: 't' :: 'y' :: r => some (Json.inf true, r)
    | '"' :: r => (pString r).map (fun p => (Json.str p.1, p.2))
    | '[' :: r =>
      match skipWs r with
      | ']' :: r2 => some (Json.arr [], r2)
      | r2 => (pArrayItems f r2).map (fun p => (Json.arr p.1, p.2))
    | '{' :: r =>
      match skipWs r with
      | '}' :: r2 => some (Json.obj [], r2)
      | r2 => (pObjMembers f [] r2).map (fun p => (Json.obj p.1, p.2))
    | c :: r => if (c == '-') || isDigit c then pNumber (c :: r) else none

/-- Array items after a non-`]` lookahead, consuming the closing `]`. -/
def pArrayItems : Nat → List Char → Option (List Json × List Char)
  | 0, _ => none
  | f + 1, s =>
    match pValue f s with
    | none => none
    | some (v, r) =>
      match skipWs r with
      | ',' :: r2 =>
        match pArrayItems f r2 with
        | some (vs, r3) => some (v :: vs, r3)
        | none => none
      | ']' :: r2 => some ([v], r2)
      | _ => none

/-- Object members after a non-`}` lookahead, consuming the closing `}`;
duplicate keys behave as Python `dict` assignment (last value wins, first
position kept). -/
def pObjMembers : Nat → List (String × Json) → List Char → Option (List (String × Json) × List Char)
  | 0, _, _ => none
  | f + 1, acc, s =>
    match skipWs s with
    | '"' :: r =>
      match pString r with
      | none => none
      | some (k, r2) =>
        match skipWs r2 with
        | ':' :: r3 =>
          match pValue f r3 with
          | none => none
          | some (v, r4) =>
            match skipWs r4 with
            | ',' :: r5 => pObjMembers f (insertKV acc k v) r5
            | '}' :: r5 => some (insertKV acc k v, r5)
            | _ => none
        | _ => none
    | _ => none

end

/-- Python's `json.loads` (also what `resp.json()` runs on the response
text): strict whole-document parse, failing on trailing non-whitespace
("Extra data") and on an empty document. -/
def jsonLoads (body : String) : Option Json :=
  let s := body.toList
  match pValue (2 * s.length + 8) s with
  | some (v, r) => if (skipWs r).isEmpty then some v else none
  | none => none

/-- CPython's whitespace set for `str.strip()` (the `Py_UNICODE_ISSPACE`
table). -/
def isPySpace (c : Char) : Bool :=
  let n := c.toNat
  (9 ≤ n && n ≤ 13) || (28 ≤ n && n ≤ 31) || (n == 32) || (n == 0x85) ||
  (n == 0xa0) || (n == 0x1680) || (0x2000 ≤ n && n ≤ 0x200a) ||
  (n == 0x2028) || (n == 0x2029) || (n == 0x202f) || (n == 0x205f) || (n == 0x3000)

/-- Python `str.strip()` with no argument: remove whitespace from both ends. -/
def pyStrip (s : String) : String :=
  String.mk (((s.toList.dropWhile isPySpace).reverse.dropWhile isPySpace).reverse)

/-- CPython's line-boundary set for `str.splitlines()`. -/
def isPyLineBreak (c : Char) : Bool :=
  let n := c.toNat
  (10 ≤ n && n ≤ 13) || (28 ≤ n && n ≤ 30) || (n == 0x85) || (n == 0x2028) || (n == 0x2029)

def pySplitlinesAux : List Char → List Char → List String
  | acc, [] => if acc.isEmpty then [] else [String.mk acc.reverse]
  | acc, '\r' :: '\n' :: rest => String.mk acc.reverse :: pySplitlinesAux [] rest
  | acc, c :: rest =>
    if isPyLineBreak c then String.mk acc.reverse :: pySplitlinesAux [] rest
    else pySplitlinesAux (c :: acc) rest

/-- Python `str.splitlines()`: split at line boundaries (with `\r\n`
counting as a single boundary), no trailing empty line. -/
def pySplitlines (s : String) : List String := pySplitlinesAux [] s.toList

/-- A value held in the cursor's `_results` list: the dict-shaped paths of
`execute` store Python tuples built from objects (source lines 72 and 87),
every other path stores the parsed JSON values unchanged. -/
inductive Row where
  | tup (vs : List Json)
  | raw (v : Json)

/-- One entry of `Cursor.description`.  The source builds 7-tuples whose
last five members are always `None`; the two meaningful members, name and
declared type, are kept.  In the envelope path both come out of parsed JSON,
so they are `Json` values (Python `None` coincides with `Json.null`). -/
abbrev ColDesc := Json × Json

/-- The mutable state of `DuckDBHTTPDBAPI.Cursor` (source lines 34-40):
`_results`, `_row_idx`, `description`, `rowcount`.  The connection url and
api key do not affect any property proved here and are omitted. -/
structure Cursor where
  results : List Row
  rowIdx : Nat
  description : List ColDesc
  rowcount : Nat

/-- A freshly constructed cursor (source lines 34-40). -/
def initCursor : Cursor := ⟨[], 0, [], 0⟩

/-- The read-position invariant stated by the spec's CursorState model. -/
abbrev Cursor.inv (c : Cursor) : Prop := c.rowIdx ≤ c.results.length

/-- Exceptions `execute` can raise: a transport failure (`requests.post`
or `raise_for_status`, lines 50-51), the `AttributeError` from calling
`.get` on a non-dict whole-document payload (line 91), a `TypeError` from
`len`/`zip` on unsized or non-iterable envelope fields (lines 93-100, 109),
and the spec's `PermissionError` from the read-only gate. -/
inductive PyError where
  | transport
  | attrErr
  | typeErr
  | permission

/-- Outcome of one `execute` call: normal return or a raised exception,
each carrying the cursor state as the call leaves it. -/
inductive ExecResult where
  | ok (c : Cursor)
  | exn (e : PyError) (c : Cursor)

/-- What reached the driver: a transport-level failure (network error or
non-2xx status, surfaced by lines 50-51 before any cursor field is touched)
or a 2xx response with its body text. -/
inductive HttpResult where
  | transportError
  | ok (body : String)

/-- Cursor state right after lines 54-55 (`_results` and `description`
cleared, `_row_idx` and `rowcount` untouched). -/
def clearedKeep (c : Cursor) : Cursor := ⟨[], c.rowIdx, [], c.rowcount⟩

/-- `dict.get` on an association list (first match; keys are unique by
`insertKV` construction). -/
def jGet (kvs : List (String × Json)) (k : String) : Option Json :=
  match kvs.find? (fun kv => kv.1 == k) with
  | some kv => some kv.2
  | none => none

def hasKey (kvs : List (String × Json)) (k : String) : Bool :=
  (jGet kvs k).isSome

/-- `p.get(k)` for an object payload, with default; used on line 72 where
every payload is known to be a dict (a missing key yields Python `None`,
i.e. `Json.null`). -/
def jGetD (p : Json) (k : String) (d : Json) : Json :=
  match p with
  | .obj kvs => (jGet kvs k).getD d
  | _ => d

/-- The line-delimited fallback of `execute` (lines 60-68): split the
stripped body into lines, strip each, skip empty lines, parse each line
independently, and silently discard lines that fail to parse. -/
def lineFallback (raw : String) : List Json :=
  (pySplitlines raw).filterMap (fun ln =>
    let t := pyStrip ln
    if t.isEmpty then none else jsonLoads t)

/-- `payloads[0].keys()` as used on line 71. -/
def firstKeys : List Json → List String
  | Json.obj kvs :: _ => kvs.map Prod.fst
  | _ => []

/-- Normalization of the line-delimited payloads (lines 70-82): if every
parsed line is a dict, columns are the first line's keys and each row pulls
values by those keys with `None` for missing ones; otherwise the parsed
values are stored as rows unchanged, with `col0..colN-1` synthesized only
when the first value is a list.  `_row_idx` is reset and `rowcount` set. -/
def lineNormalize (ps : List Json) : Cursor :=
  if !ps.isEmpty && ps.all Json.isObj then
    let cols := firstKeys ps
    ⟨ps.map (fun p => Row.tup (cols.map (fun k => jGetD p k Json.null))), 0,
     cols.map (fun k => (Json.str k, Json.null)), ps.length⟩
  else
    let desc : List ColDesc :=
      match ps with
      | Json.arr vs :: _ =>
        (List.range vs.length).map (fun i => (Json.str (("col").append (toString i)), Json.null))
      | _ => []
    ⟨ps.map Row.raw, 0, desc, ps.length⟩

/-- Python `len` on a JSON value (`TypeError`, i.e. `none`, when unsized). -/
def pySizeLen : Json → Option Nat
  | .arr xs => some xs.length
  | .str s => some s.length
  | .obj kvs => some kvs.length
  | _ => none

/-- Python iteration over a JSON value as `zip` consumes it: lists yield
their elements, strings their characters (as 1-character strings), dicts
their keys; other values are not iterable (`TypeError`). -/
def pyIter : Json → Option (List Json)
  | .arr xs => some xs
  | .str s => some (s.toList.map (fun ch => Json.str (String.mk [ch])))
  | .obj kvs => some (kvs.map (fun kv => Json.str kv.1))
  | _ => none

/-- Python truthiness of a JSON value. -/
def pyTruthy : Json → Bool
  | .null => false
  | .bool b => b
  | .num m _ => !(m == 0)
  | .nan => true
  | .inf _ => true
  | .str s => !s.isEmpty
  | .arr xs => !xs.isEmpty
  | .obj kvs => !kvs.isEmpty

/-- The assignment `self._results = payload.get("data", [])` (line 91) as a
row list: a JSON array contributes its elements, a string its characters
(which is how the later `len` and indexing treat it).  Any other value is
unsized or unindexable and makes the call fail at `len`/indexing; that case
returns `none` and is surfaced as a `TypeError` outcome. -/
def dataRows : Json → Option (List Row)
  | .arr xs => some (xs.map Row.raw)
  | .str s => some (s.toList.map (fun ch => Row.raw (Json.str (String.mk [ch]))))
  | _ => none

/-- `len(self._results[0])` (line 100) on a stored row. -/
def rowLen : Row → Option Nat
  | .tup vs => some vs.length
  | .raw v => pySizeLen v

/-- The whole-document dict paths of `execute` (lines 85-109): a dict
without `data`/`columns` keys becomes a single tuple row with the dict's
keys as columns; otherwise the dict is an envelope: `data` is the row list
(default `[]`), `columns` the names (synthesized `col0..` from the first
row's width when absent), `types` the declared types (default `None` per
column), with `zip(cols, types)` truncating to the shorter list. -/
def wholeDictNormalize (c : Cursor) (kvs : List (String × Json)) : ExecResult :=
  if hasKey kvs ("data") || hasKey kvs ("columns") then
    match dataRows ((jGet kvs ("data")).getD (Json.arr [])) with
    | none => .exn .typeErr (clearedKeep c)
    | some rows =>
      match pySizeLen ((jGet kvs ("columns")).getD (Json.arr [])) with
      | none => .exn .typeErr ⟨rows, c.rowIdx, [], c.rowcount⟩
      | some nCols =>
        if pyTruthy ((jGet kvs ("columns")).getD (Json.arr [])) then
          match pyIter ((jGet kvs ("columns")).getD (Json.arr [])),
                pyIter ((jGet kvs ("types")).getD (Json.arr (List.replicate nCols Json.null))) with
          | some cl, some tl => .ok ⟨rows, 0, cl.zip tl, rows.length⟩
          | _, _ => .exn .typeErr ⟨rows, c.rowIdx, [], c.rowcount⟩
        else
          match rows with
          | [] => .ok ⟨[], 0, [], 0⟩
          | r0 :: _ =>
            match rowLen r0 with
            | none => .exn .typeErr ⟨rows, c.rowIdx, [], c.rowcount⟩
            | some w =>
              .ok ⟨rows, 0,
                   (List.range w).map (fun i => (Json.str (("col").append (toString i)), Json.null)),
                   rows.length⟩
  else
    .ok ⟨[Row.tup (kvs.map Prod.snd)], 0, kvs.map (fun kv => (Json.str kv.1, Json.null)), 1⟩

/-- Body processing of `execute` after a 2xx response (lines 53-110):
`_results`/`description` are cleared, the body is parsed as whole-document
JSON; on success a dict goes through the bare-object/envelope paths and any
non-dict payload raises `AttributeError` at `payload.get` (line 91); on
parse failure the line-delimited fallback runs and never raises. -/
def executeBody (c : Cursor) (body : String) : ExecResult :=
  match jsonLoads body with
  | some (Json.obj kvs) => wholeDictNormalize c kvs
  | some _ => .exn .attrErr (clearedKeep c)
  | none => .ok (lineNormalize (lineFallback (pyStrip body)))

/-- `Cursor.execute` driven by what the transport returned: a transport
failure propagates before any cursor field is touched (lines 50-51 precede
lines 54-55). -/
def executeResp (c : Cursor) (r : HttpResult) : ExecResult :=
  match r with
  | .transportError => .exn .transport c
  | .ok body => executeBody c body

/-- `Cursor.fetchone` (lines 112-117). -/
def fetchone (c : Cursor) : Option Row × Cursor :=
  if h : c.rowIdx < c.results.length then
    (some (c.results.get ⟨c.rowIdx, h⟩), { c with rowIdx := c.rowIdx + 1 })
  else (none, c)

/-- Normalize one Python slice endpoint for a list of length `n`. -/
def pyNorm (n : Nat) (i : Int) : Nat :=
  if i < 0 then (n + i).toNat else min i.toNat n

/-- Python list slicing `xs[a:b]`. -/
def pySlice {α : Type} (xs : List α) (a b : Int) : List α :=
  (xs.take (pyNorm xs.length b)).drop (pyNorm xs.length a)

/-- `Cursor.fetchmany` (lines 119-124); `none` models the `size=None`
default, which the source replaces by 1. -/
def fetchmany (sz : Option Int) (c : Cursor) : List Row × Cursor :=
  let size := sz.getD 1
  let rows := pySlice c.results (c.rowIdx : Int) ((c.rowIdx : Int) + size)
  (rows, { c with rowIdx := c.rowIdx + rows.length })

/-- `Cursor.fetchall` (lines 126-131). -/
def fetchall (c : Cursor) : List Row × Cursor :=
  if c.rowIdx < c.results.length then
    (c.results.drop c.rowIdx, { c with rowIdx := c.results.length })
  else ([], c)

/-- `Cursor.close` (lines 133-136): clears `_results`, `description` and
`rowcount`; `_row_idx` is left as it was. -/
def Cursor.close (c : Cursor) : Cursor := ⟨[], c.rowIdx, [], 0⟩

/-- Modelled from the spec: the Read-Only Classifier of §4.4 is not part of
the source snapshot (only `execute` and the dialect layer are); per the
spec, a query is read-only exactly when its parsed form is a plain
selection/set-combination or an introspection command with verb `SHOW`,
`PRAGMA` or `EXPLAIN`, and unparseable input is rejected (fail closed).
The leading keyword decides membership in that allow-list. -/
def isReadOnly (q : String) : Bool :=
  let tok := String.mk ((q.toList.dropWhile isPySpace).takeWhile (fun ch => ch.isAlpha))
  let up := String.mk (tok.toList.map Char.toUpper)
  (up == ("SELECT")) || (up == ("SHOW")) || (up == ("PRAGMA")) || (up == ("EXPLAIN"))

/-- Modelled from the spec: the connection's `read_only` flag is a string
compared case-insensitively against "true" (§6). -/
def readOnlyActive (flag : String) : Bool :=
  (String.mk (flag.toList.map Char.toLower)) == ("true")

/-- Modelled from the spec: under an active `read_only` flag every execute
is gated through the classifier and a rejected query raises
`PermissionError` before any network call (§6, §7).  The boolean result
records whether a network request was issued. -/
def executeGated (flag : String) (q : String) (c : Cursor) (r : HttpResult) : ExecResult × Bool :=
  if readOnlyActive flag && !isReadOnly q then ((.exn .permission c), false)
  else (executeResp c r, true)

theorem pyNorm_le (n : Nat) (i : Int) : pyNorm n i ≤ n := by
  unfold pyNorm
  split
  · omega
  · exact min_le_right _ _

theorem pyNorm_nat (n m : Nat) (h : m ≤ n) : pyNorm n (m : Int) = m := by
  unfold pyNorm
  split
  · omega
  · omega

theorem pySlice_nil {α : Type} (a b : Int) : pySlice ([] : List α) a b = [] := by
  simp [pySlice]

theorem lineNormalize_rowIdx (ps : List Json) : (lineNormalize ps).rowIdx = 0 := by
  unfold lineNormalize
  split <;> rfl

theorem fetchone_spec (c : Cursor) (h : c.inv) :
    (fetchone c).2.results = c.results ∧ (fetchone c).2.inv ∧
    c.results.take (fetchone c).2.rowIdx =
      c.results.take c.rowIdx ++ (fetchone c).1.toList := by
  unfold fetchone
  split
  case isTrue hlt =>
    refine ⟨rfl, ?_, ?_⟩
    · exact hlt
    · rw [List.take_succ]
      congr 1
      rw [List.getElem?_eq_getElem hlt]
      rfl
  case isFalse hge =>
    refine ⟨rfl, h, ?_⟩
    simp

theorem fetchmany_spec (sz : Option Int) (c : Cursor) (h : c.inv) :
    (fetchmany sz c).2.results = c.results ∧ (fetchmany sz c).2.inv ∧
    c.results.take (fetchmany sz c).2.rowIdx =
      c.results.take c.rowIdx ++ (fetchmany sz c).1 := by
  have ha : pyNorm c.results.length (c.rowIdx : Int) = c.rowIdx := pyNorm_nat _ _ h
  have hb : pyNorm c.results.length ((c.rowIdx : Int) + (sz.getD 1)) ≤ c.results.length :=
    pyNorm_le _ _
  simp only [fetchmany, pySlice, ha]
  set e := pyNorm c.results.length ((c.rowIdx : Int) + sz.getD 1) with he
  have hlen : ((c.results.take e).drop c.rowIdx).length = e - c.rowIdx := by
    simp [Nat.min_eq_left hb]
  refine ⟨by trivial, ?_, ?_⟩
  · simp only [Cursor.inv, hlen]
    omega
  · rcases le_or_lt e c.rowIdx with hle | hlt
    · have h0 : ((c.results.take e).drop c.rowIdx) = [] := by
        have := hlen
        exact List.eq_nil_of_length_eq_zero (by omega)
      simp [h0, hlen]
    · have hidx : c.rowIdx + ((c.results.take e).drop c.rowIdx).length = e := by omega
      rw [hidx]
      conv_lhs => rw [← List.take_append_drop c.rowIdx (c.results.take e)]
      congr 1
      rw [List.take_take, Nat.min_eq_left (Nat.le_of_lt hlt)]

theorem fetchall_spec (c : Cursor) (h : c.inv) :
    (fetchall c).2.results = c.results ∧ (fetchall c).2.inv ∧
    c.results.take (fetchall c).2.rowIdx =
      c.results.take c.rowIdx ++ (fetchall c).1 ∧
    (fetchall c).2.rowIdx = c.results.length := by
  unfold fetchall
  split
  case isTrue hlt =>
    refine ⟨rfl, by simp [Cursor.inv], ?_, rfl⟩
    rw [List.take_length]
    exact (List.take_append_drop c.rowIdx c.results).symm
  case isFalse hge =>
    have hix : c.rowIdx = c.results.length := by
      simp only [Cursor.inv] at h
      omega
    exact ⟨rfl, h, by simp, hix⟩

/-- C1 (counterexample): after a successful `execute` that produced one
row, a failed `execute` (transport error / non-2xx) does not clear the
cursor — `fetchone` still returns the row from the previous result set,
not the end-of-data marker of an empty, exhausted cursor. -/
theorem c1_transport_keeps_stale_rows :
    executeBody initCursor ("\x7b\"a\":1\x7d") =
      .ok ⟨[Row.tup [Json.num 1 0]], 0, [(Json.str ("a"), Json.null)], 1⟩
    ∧ executeResp ⟨[Row.tup [Json.num 1 0]], 0, [(Json.str ("a"), Json.null)], 1⟩
        .transportError =
      .exn .transport ⟨[Row.tup [Json.num 1 0]], 0, [(Json.str ("a"), Json.null)], 1⟩
    ∧ (fetchone ⟨[Row.tup [Json.num 1 0]], 0, [(Json.str ("a"), Json.null)], 1⟩).1 =
      some (Row.tup [Json.num 1 0]) := ⟨rfl, rfl, rfl⟩

/-- C1 (amended): an `execute` that fails at the transport stage (network
error or non-2xx status) raises before any cursor field is assigned, so the
cursor state — previous result set, read position, description, rowcount —
is left exactly as it was; subsequent fetches observe the previous rows,
not an empty cursor.  (Failures after the body is received clear
`_results`/`description` but keep the read position, and the parse stage
never raises at all.) -/
theorem c1_transport_preserves_state (c : Cursor) :
    executeResp c .transportError = .exn .transport c
    ∧ executeBody c ("[1]") = .exn .attrErr (clearedKeep c) := ⟨rfl, rfl⟩

/-- C8: after `close()` on a cursor in any state, `fetchone` returns the
end-of-data marker, `fetchmany` and `fetchall` return empty sequences, no
error is raised (the operations stay total), and each fetch returns exactly
what it returns on a freshly constructed, never-executed cursor. -/
theorem c8_close_fetches_like_fresh (c : Cursor) (sz : Option Int) :
    (fetchone (Cursor.close c)).1 = none
    ∧ (fetchmany sz (Cursor.close c)).1 = []
    ∧ (fetchall (Cursor.close c)).1 = []
    ∧ (fetchone (Cursor.close c)).1 = (fetchone initCursor).1
    ∧ (fetchmany sz (Cursor.close c)).1 = (fetchmany sz initCursor).1
    ∧ (fetchall (Cursor.close c)).1 = (fetchall initCursor).1 := by
  have h1 : (fetchone (Cursor.close c)).1 = none := by
    unfold fetchone Cursor.close
    simp
  have h2 : (fetchmany sz (Cursor.close c)).1 = [] := by
    unfold fetchmany Cursor.close
    simp [pySlice_nil]
  have h3 : (fetchall (Cursor.close c)).1 = [] := by
    unfold fetchall Cursor.close
    simp
  have g1 : (fetchone initCursor).1 = none := rfl
  have g2 : (fetchmany sz initCursor).1 = [] := by
    unfold fetchmany initCursor
    simp [pySlice_nil]
  have g3 : (fetchall initCursor).1 = [] := rfl
  exact ⟨h1, h2, h3, by rw [h1, g1], by rw [h2, g2], by rw [h3, g3]⟩

/-- One fetch call in a consumption sequence: `fetchone`, `fetchmany`
(with its optional size argument) or `fetchall`. -/
inductive FetchOp where
  | one
  | many (sz : Option Int)
  | all

/-- Run one fetch call, returning the rows it hands back (a `fetchone`
result contributes zero or one row). -/
def applyOp (c : Cursor) : FetchOp → List Row × Cursor
  | .one => ((fetchone c).1.toList, (fetchone c).2)
  | .many sz => fetchmany sz c
  | .all => fetchall c

/-- Run a sequence of fetch calls, concatenating the returned rows. -/
def runFetch : Cursor → List FetchOp → List Row × Cursor
  | c, [] => ([], c)
  | c, op :: ops =>
    ((applyOp c op).1 ++ (runFetch (applyOp c op).2 ops).1,
     (runFetch (applyOp c op).2 ops).2)

theorem applyOp_spec (c : Cursor) (op : FetchOp) (h : c.inv) :
    (applyOp c op).2.results = c.results ∧ (applyOp c op).2.inv ∧
    c.results.take (applyOp c op).2.rowIdx =
      c.results.take c.rowIdx ++ (applyOp c op).1 := by
  cases op with
  | one => exact fetchone_spec c h
  | many sz => exact fetchmany_spec sz c h
  | all =>
    obtain ⟨h1, h2, h3, _⟩ := fetchall_spec c h
    exact ⟨h1, h2, h3⟩

theorem runFetch_spec (ops : List FetchOp) (c : Cursor) (h : c.inv) :
    (runFetch c ops).2.results = c.results ∧ (runFetch c ops).2.inv ∧
    c.results.take (runFetch c ops).2.rowIdx =
      c.results.take c.rowIdx ++ (runFetch c ops).1 := by
  induction ops generalizing c with
  | nil => exact ⟨rfl, h, by simp [runFetch]⟩
  | cons op ops ih =>
    obtain ⟨s1, s2, s3⟩ := applyOp_spec c op h
    obtain ⟨i1, i2, i3⟩ := ih (applyOp c op).2 s2
    rw [s1] at i1 i3
    refine ⟨?_, ?_, ?_⟩
    · show (runFetch (applyOp c op).2 ops).2.results = c.results
      exact i1
    · show ((runFetch (applyOp c op).2 ops).2 : Cursor).inv
      exact i2
    · show c.results.take (runFetch (applyOp c op).2 ops).2.rowIdx =
        c.results.take c.rowIdx ++ ((applyOp c op).1 ++ (runFetch (applyOp c op).2 ops).1)
      rw [i3, s3, List.append_assoc]

theorem runFetch_append_all (c : Cursor) (ops : List FetchOp) :
    runFetch c (ops ++ [FetchOp.all]) =
      ((runFetch c ops).1 ++ (fetchall (runFetch c ops).2).1,
       (fetchall (runFetch c ops).2).2) := by
  induction ops generalizing c with
  | nil => simp [runFetch, applyOp]
  | cons op ops ih =>
    show ((applyOp c op).1 ++ (runFetch (applyOp c op).2 (ops ++ [FetchOp.all])).1,
          (runFetch (applyOp c op).2 (ops ++ [FetchOp.all])).2) = _
    rw [ih]
    simp [runFetch, List.append_assoc]

/-- C7: for a cursor freshly populated by a successful `execute` (read
position 0, R stored rows), any sequence of `fetchone` / `fetchmany` /
`fetchall` calls returns a prefix of the stored rows (in order, no
duplicates, no gaps — the concatenated output IS `take` of the final
position) while leaving the row list untouched, and any such sequence run
to exhaustion (here: ending in `fetchall`) returns exactly the R rows, so
the total number of rows handed out is R. -/
theorem c7_cursor_conservation (c : Cursor) (ops : List FetchOp) (h : c.rowIdx = 0) :
    (runFetch c ops).1 = c.results.take (runFetch c ops).2.rowIdx
    ∧ (runFetch c ops).2.results = c.results
    ∧ (runFetch c (ops ++ [FetchOp.all])).1 = c.results
    ∧ (runFetch c (ops ++ [FetchOp.all])).1.length = c.results.length := by
  have hinv : c.inv := by simp [Cursor.inv, h]
  obtain ⟨r1, r2, r3⟩ := runFetch_spec ops c hinv
  have hout : (runFetch c ops).1 = c.results.take (runFetch c ops).2.rowIdx := by
    rw [r3, h]
    simp
  have hall : (runFetch c (ops ++ [FetchOp.all])).1 = c.results := by
    rw [runFetch_append_all]
    show (runFetch c ops).1 ++ (fetchall (runFetch c ops).2).1 = c.results
    obtain ⟨f1, f2, f3, f4⟩ := fetchall_spec (runFetch c ops).2 r2
    rw [r1] at f3 f4
    rw [f4, List.take_length] at f3
    rw [hout]
    exact f3.symm
  exact ⟨hout, r1, hall, by rw [hall]⟩

/-- Concrete cursor used to instantiate the C7 theorem. -/
def c7wCursor : Cursor :=
  ⟨[Row.raw (Json.num 7 0), Row.raw Json.null, Row.raw (Json.bool true)], 0, [], 3⟩

/-- Witness for C7 at a concrete cursor and call sequence. -/
theorem c7_cursor_conservation_witness :
    (runFetch c7wCursor ([FetchOp.one, FetchOp.many (some 5)] ++ [FetchOp.all])).1 =
      c7wCursor.results :=
  (c7_cursor_conservation c7wCursor [FetchOp.one, FetchOp.many (some 5)] rfl).2.2.1

theorem execBody_ok_rowIdx (c : Cursor) (b : String) (c' : Cursor)
    (hr : executeBody c b = .ok c') : c'.rowIdx = 0 := by
  unfold executeBody wholeDictNormalize at hr
  repeat' split at hr
  all_goals
    first
      | (exact hr ▸ rfl)
      | (injection hr with hh; rw [← hh]; exact lineNormalize_rowIdx _)
      | (injection hr with hh; exact hh ▸ rfl)
      | simp at hr

theorem execResp_ok_inv (c : Cursor) (r : HttpResult) (c' : Cursor)
    (hr : executeResp c r = .ok c') : c'.inv := by
  cases r with
  | transportError => simp [executeResp] at hr
  | ok body =>
    have h0 : c'.rowIdx = 0 := execBody_ok_rowIdx c body c' hr
    show c'.rowIdx ≤ c'.results.length
    rw [h0]
    exact Nat.zero_le _

/-- C3 (counterexample): the claimed invariant `0 <= pos <= len(rows)` does
not survive `close()` — after executing a one-row body, fetching that row
(position 1) and closing (rows cleared, position kept), the position exceeds
the row count. -/
theorem c3_close_breaks_invariant :
    executeBody initCursor ("\x7b\"a\":1\x7d") =
      .ok ⟨[Row.tup [Json.num 1 0]], 0, [(Json.str ("a"), Json.null)], 1⟩
    ∧ (fetchone ⟨[Row.tup [Json.num 1 0]], 0, [(Json.str ("a"), Json.null)], 1⟩).2.rowIdx = 1
    ∧ ¬ (Cursor.close
          (fetchone ⟨[Row.tup [Json.num 1 0]], 0, [(Json.str ("a"), Json.null)], 1⟩).2).inv :=
  ⟨rfl, rfl, by decide⟩

/-- C3 (amended): the read position satisfies `0 <= pos <= len(rows)` after
construction, after every successful `execute` (which resets it to 0) and
after every fetch operation; `close()` however clears the rows without
resetting the position, so the invariant can fail after `close` (the
position is merely preserved, and all fetches still behave as exhausted). -/
theorem c3_position_invariant (c : Cursor) (sz : Option Int) (r : HttpResult) (h : c.inv) :
    initCursor.inv
    ∧ (∀ c₀ c', executeResp c₀ r = .ok c' → c'.inv)
    ∧ (fetchone c).2.inv
    ∧ (fetchmany sz c).2.inv
    ∧ (fetchall c).2.inv
    ∧ (Cursor.close c).results = [] ∧ (Cursor.close c).rowIdx = c.rowIdx := by
  refine ⟨Nat.zero_le _, fun c₀ c' hr => execResp_ok_inv c₀ r c' hr, ?_, ?_, ?_, rfl, rfl⟩
  · exact (fetchone_spec c h).2.1
  · exact (fetchmany_spec sz c h).2.1
  · exact (fetchall_spec c h).2.1

/-- Concrete cursor (one row already fetched) used to instantiate C3. -/
def c3wCursor : Cursor := ⟨[Row.raw Json.null], 1, [], 1⟩

/-- Witness for C3 at a concrete in-invariant cursor. -/
theorem c3_position_invariant_witness : (fetchone c3wCursor).2.inv :=
  (c3_position_invariant c3wCursor (some 2) HttpResult.transportError (by decide)).2.2.1

theorem execBody_parse_fail (c : Cursor) (body : String) (hw : jsonLoads body = none) :
    executeBody c body = .ok (lineNormalize (lineFallback (pyStrip body))) := by
  unfold executeBody
  rw [hw]

/-- C2 (counterexample): a response body that is a whole-document JSON
array of objects does not get normalized at all — `execute` raises (the
array payload reaches `payload.get("data", ...)`, an `AttributeError`),
leaving empty results, instead of producing columns `["x"]` and rows
`[(1,),(2,)]`. -/
theorem c2_whole_document_array_raises :
    executeBody initCursor ("[\x7b\"x\":1\x7d,\x7b\"x\":2\x7d]") =
      .exn .attrErr ⟨[], 0, [], 0⟩ := rfl

/-- C2 (amended): the first-element-key normalization applies to the
line-delimited path: when the whole-document parse fails and every parsed
line is an object, the column set is the key list of the first object in
that object's order, and every row pulls values by that fixed key list with
`null` for missing keys (extra keys of later objects are dropped).  A body
that parses as a whole-document JSON array instead makes `execute` raise
`AttributeError` at `payload.get`. -/
theorem c2_first_object_keys_schema (c : Cursor) (body : String)
    (kvs0 : List (String × Json)) (ps' : List Json)
    (hw : jsonLoads body = none)
    (hp : lineFallback (pyStrip body) = Json.obj kvs0 :: ps')
    (hobj : (Json.obj kvs0 :: ps').all Json.isObj = true) :
    executeBody c body =
      .ok ⟨(Json.obj kvs0 :: ps').map
             (fun p => Row.tup ((kvs0.map Prod.fst).map (fun k => jGetD p k Json.null))), 0,
           (kvs0.map Prod.fst).map (fun k => (Json.str k, Json.null)),
           (Json.obj kvs0 :: ps').length⟩ := by
  rw [execBody_parse_fail c body hw, hp]
  unfold lineNormalize
  have hcond : (!(Json.obj kvs0 :: ps').isEmpty && (Json.obj kvs0 :: ps').all Json.isObj) = true := by
    simp [hobj]
  rw [if_pos hcond]
  rfl

/-- Witness for C2 at a concrete two-line body whose second object carries
an extra key that is dropped. -/
theorem c2_first_object_keys_schema_witness :
    executeBody initCursor ("\x7b\"x\":1\x7d\n\x7b\"x\":2,\"y\":5\x7d") =
      .ok ⟨[Row.tup [Json.num 1 0], Row.tup [Json.num 2 0]], 0,
           [(Json.str ("x"), Json.null)], 2⟩ :=
  c2_first_object_keys_schema initCursor ("\x7b\"x\":1\x7d\n\x7b\"x\":2,\"y\":5\x7d")
    [(("x"), Json.num 1 0)] [Json.obj [(("x"), Json.num 2 0), (("y"), Json.num 5 0)]]
    rfl rfl rfl

/-- C4 (counterexample): a body that is neither valid whole-document JSON
nor has any parseable line does not raise any parse error — `execute`
returns normally with an empty result set, and a subsequent fetch sees an
empty, exhausted cursor. -/
theorem c4_no_parse_error_raised :
    executeBody initCursor ("not json at all\x7b\x7b") = .ok initCursor
    ∧ (fetchone initCursor).1 = none := ⟨rfl, rfl⟩

/-- C4 (amended): when the body is neither valid whole-document JSON nor
contains any line that parses as JSON, the parse step does not fail — every
unparseable line is silently discarded, the payload list is empty, and
`execute` returns normally with an empty, exhausted result set (the state
of a freshly constructed cursor). -/
theorem c4_unparseable_body_yields_empty (c : Cursor) (body : String)
    (hw : jsonLoads body = none) (hl : lineFallback (pyStrip body) = []) :
    executeBody c body = .ok initCursor := by
  rw [execBody_parse_fail c body hw, hl]
  rfl

/-- Witness for C4 at a concrete unparseable body. -/
theorem c4_unparseable_body_yields_empty_witness :
    executeBody initCursor ("definitely not json") = .ok initCursor :=
  c4_unparseable_body_yields_empty initCursor ("definitely not json") rfl rfl

/-- C5 (counterexample): an array of primitive scalars is not wrapped into
width-1 rows under a synthesized `col0` column — scalars arriving on the
line-delimited path are stored bare with an empty description, and a
whole-document scalar array makes `execute` raise. -/
theorem c5_scalars_not_wrapped :
    executeBody initCursor ("1\n2") =
      .ok ⟨[Row.raw (Json.num 1 0), Row.raw (Json.num 2 0)], 0, [], 2⟩
    ∧ executeBody initCursor ("[1,2]") = .exn .attrErr ⟨[], 0, [], 0⟩ := ⟨rfl, rfl⟩

/-- C5 (amended): an all-scalar payload can only arise on the line-delimited
path, where each parsed scalar is kept as a bare (non-tuple) row and no
column is synthesized: the description stays empty.  (A whole-document
scalar-array body instead raises `AttributeError` at `payload.get`.) -/
theorem c5_scalar_lines_kept_bare (c : Cursor) (body : String) (p : Json) (ps' : List Json)
    (hw : jsonLoads body = none)
    (hp : lineFallback (pyStrip body) = p :: ps')
    (hs : (p :: ps').all Json.isScalar = true) :
    executeBody c body = .ok ⟨(p :: ps').map Row.raw, 0, [], (p :: ps').length⟩ := by
  rw [execBody_parse_fail c body hw, hp]
  have hps : Json.isScalar p = true := by
    simp only [List.all_cons, Bool.and_eq_true] at hs
    exact hs.1
  have hcond : ¬ ((!(p :: ps').isEmpty && (p :: ps').all Json.isObj) = true) := by
    cases p <;> simp_all [Json.isScalar, Json.isObj]
  unfold lineNormalize
  rw [if_neg hcond]
  cases p <;> first | rfl | (exact absurd hps (by simp [Json.isScalar]))

/-- Witness for C5 at a concrete body of scalar lines. -/
theorem c5_scalar_lines_kept_bare_witness :
    executeBody initCursor ("true\nnull\n7") =
      .ok ⟨[Row.raw (Json.bool true), Row.raw Json.null, Row.raw (Json.num 7 0)], 0, [], 3⟩ :=
  c5_scalar_lines_kept_bare initCursor ("true\nnull\n7") (Json.bool true)
    [Json.null, Json.num 7 0] rfl rfl rfl

/-- C9: when the whole-document parse fails, `execute` normalizes exactly
the payloads collected by the line fallback: non-empty stripped lines, each
parsed independently, unparseable lines discarded, parsed values kept in
original line order.  Concretely, the body with lines of objects keyed `n`
yields columns `["n"]` and rows `[(1,),(2,)]`, and inserting an unparseable
`GARBAGE` line and a blank line changes nothing. -/
theorem c9_line_split_parse_discard (c : Cursor) (body : String)
    (hw : jsonLoads body = none) :
    executeBody c body = .ok (lineNormalize (lineFallback (pyStrip body)))
    ∧ lineFallback (pyStrip ("\x7b\"n\":1\x7d\n\x7b\"n\":2\x7d\n")) =
        [Json.obj [(("n"), Json.num 1 0)], Json.obj [(("n"), Json.num 2 0)]]
    ∧ executeBody initCursor ("\x7b\"n\":1\x7d\n\x7b\"n\":2\x7d\n") =
        .ok ⟨[Row.tup [Json.num 1 0], Row.tup [Json.num 2 0]], 0,
             [(Json.str ("n"), Json.null)], 2⟩
    ∧ lineFallback (pyStrip ("\x7b\"n\":1\x7d\nGARBAGE\n\n\x7b\"n\":2\x7d")) =
        lineFallback (pyStrip ("\x7b\"n\":1\x7d\n\x7b\"n\":2\x7d\n")) :=
  ⟨execBody_parse_fail c body hw, rfl, rfl, rfl⟩

/-- Witness for C9 at the concrete line-delimited body. -/
theorem c9_line_split_parse_discard_witness :
    executeBody initCursor ("\x7b\"n\":1\x7d\n\x7b\"n\":2\x7d\n") =
      .ok (lineNormalize (lineFallback (pyStrip ("\x7b\"n\":1\x7d\n\x7b\"n\":2\x7d\n")))) :=
  (c9_line_split_parse_discard initCursor ("\x7b\"n\":1\x7d\n\x7b\"n\":2\x7d\n") rfl).1

/-- C6: with the connection's `read_only` flag active (string "true",
case-insensitive) and a query the classifier rejects, `execute` raises
`PermissionError` before any network call — the cursor state is returned
untouched and no request is issued; and the classifier accepts `SELECT` and
`PRAGMA` queries while rejecting `INSERT` and unparseable input. -/
theorem c6_read_only_gate (flag q : String) (c : Cursor) (r : HttpResult)
    (hf : readOnlyActive flag = true) (hq : isReadOnly q = false) :
    executeGated flag q c r = ((.exn .permission c), false)
    ∧ isReadOnly ("SELECT 1") = true
    ∧ isReadOnly ("PRAGMA table_info('t')") = true
    ∧ isReadOnly ("INSERT INTO t VALUES (1)") = false
    ∧ isReadOnly ("not sql at all\x7b\x7b") = false := by
  refine ⟨?_, rfl, rfl, rfl, rfl⟩
  unfold executeGated
  rw [hf, hq]
  rfl

/-- Witness for C6 at the concrete `INSERT` query under flag "true". -/
theorem c6_read_only_gate_witness :
    executeGated ("true") ("INSERT INTO t VALUES (1)") initCursor HttpResult.transportError =
      ((.exn .permission initCursor), false) :=
  (c6_read_only_gate ("true") ("INSERT INTO t VALUES (1)") initCursor
    HttpResult.transportError rfl rfl).1

/-- C10: in the envelope path, a `columns` list longer than the `types`
list produces a description with only `min(len(columns), len(types))`
entries — `zip(cols, types)` truncates, so the trailing columns are dropped
from the description rather than receiving a default no-declared-type
entry.  The third conjunct shows this through a full `execute` on a
concrete body with two columns and one type. -/
theorem c10_types_zip_truncates (c : Cursor) (kvs : List (String × Json)) (cs ts ds : List Json)
    (hc : jGet kvs ("columns") = some (Json.arr cs))
    (ht : jGet kvs ("types") = some (Json.arr ts))
    (hd : jGet kvs ("data") = some (Json.arr ds))
    (hlen : ts.length < cs.length) :
    wholeDictNormalize c kvs = .ok ⟨ds.map Row.raw, 0, cs.zip ts, ds.length⟩
    ∧ (cs.zip ts).length = min cs.length ts.length
    ∧ (cs.zip ts).length < cs.length
    ∧ executeBody initCursor ("\x7b\"columns\":[\"a\",\"b\"],\"types\":[\"INTEGER\"],\"data\":[]\x7d") =
        .ok ⟨[], 0, [(Json.str ("a"), Json.str ("INTEGER"))], 0⟩ := by
  obtain ⟨c0, cs', rfl⟩ : ∃ c0 cs', cs = c0 :: cs' := by
    cases cs with
    | nil => exact absurd hlen (by simp)
    | cons c0 cs' => exact ⟨c0, cs', rfl⟩
  have hk : (hasKey kvs ("data") || hasKey kvs ("columns")) = true := by
    simp [hasKey, hd]
  refine ⟨?_, ?_, ?_, rfl⟩
  · unfold wholeDictNormalize
    rw [if_pos hk, hd, hc, ht]
    simp only [Option.getD_some, dataRows, pySizeLen, pyIter, pyTruthy, List.isEmpty_cons,
      Bool.not_false, if_true, List.length_map]
  · exact List.length_zip _ _
  · rw [List.length_zip]
    omega

/-- Witness for C10 at a concrete envelope payload. -/
theorem c10_types_zip_truncates_witness :
    wholeDictNormalize initCursor
        [(("columns"), Json.arr [Json.str ("a"), Json.str ("b")]),
         (("types"), Json.arr [Json.str ("INTEGER")]),
         (("data"), Json.arr [])] =
      .ok ⟨[], 0, [(Json.str ("a"), Json.str ("INTEGER"))], 0⟩ :=
  (c10_types_zip_truncates initCursor
    [(("columns"), Json.arr [Json.str ("a"), Json.str ("b")]),
     (("types"), Json.arr [Json.str ("INTEGER")]),
     (("data"), Json.arr [])]
    [Json.str ("a"), Json.str ("b")] [Json.str ("INTEGER")] []
    rfl rfl rfl (by decide)).1
